import Mathlib

/-!
Shallow embedding of the paginated collection view (`List`) and the
`ConfigProvider` component from `src/components/list/index.tsx`, together with
proofs about the pagination clamp, the visible-slice computation, key
resolution, loading placeholder selection, pagination event handling and the
configuration-provider merge.

JavaScript numbers that can arise in the pagination arithmetic are modelled by
`JNum`: an exact integer, the two infinities, `NaN`, and `undefined` (which
behaves as `NaN` in arithmetic and comparisons). All integer values appearing
in this component are small enough that IEEE-754 rounding is irrelevant, so an
exact integer model is faithful.
-/

namespace AntList

/-- A JavaScript numeric value (or `undefined`) as it can flow through the
pagination arithmetic of the component. -/
inductive JNum where
  | int : Int → JNum
  | posInf : JNum
  | negInf : JNum
  | nan : JNum
  | undef : JNum
deriving DecidableEq, Repr

namespace JNum

/-- JavaScript truthiness of a numeric value: `0`, `NaN` and `undefined` are
falsy, every other number (including the infinities) is truthy. -/
def truthy : JNum → Bool
  | int n => n ≠ 0
  | posInf => true
  | negInf => true
  | nan => false
  | undef => false

/-- JavaScript strict `a > b` on numbers. Any comparison involving `NaN`
(and hence `undefined`, which coerces to `NaN`) is `false`. -/
def jgt : JNum → JNum → Bool
  | nan, _ => false
  | undef, _ => false
  | _, nan => false
  | _, undef => false
  | int a, int b => decide (b < a)
  | int _, posInf => false
  | int _, negInf => true
  | posInf, int _ => true
  | posInf, posInf => false
  | posInf, negInf => true
  | negInf, _ => false

/-- JavaScript subtraction `a - b`. -/
def jsub : JNum → JNum → JNum
  | nan, _ => nan
  | undef, _ => nan
  | _, nan => nan
  | _, undef => nan
  | int a, int b => int (a - b)
  | int _, posInf => negInf
  | int _, negInf => posInf
  | posInf, int _ => posInf
  | posInf, posInf => nan
  | posInf, negInf => posInf
  | negInf, int _ => negInf
  | negInf, posInf => negInf
  | negInf, negInf => nan

/-- JavaScript multiplication `a * b`; `±∞ * 0 = NaN`. -/
def jmul : JNum → JNum → JNum
  | nan, _ => nan
  | undef, _ => nan
  | _, nan => nan
  | _, undef => nan
  | int a, int b => int (a * b)
  | int a, posInf => if a = 0 then nan else if 0 < a then posInf else negInf
  | int a, negInf => if a = 0 then nan else if 0 < a then negInf else posInf
  | posInf, int b => if b = 0 then nan else if 0 < b then posInf else negInf
  | posInf, posInf => posInf
  | posInf, negInf => negInf
  | negInf, int b => if b = 0 then nan else if 0 < b then negInf else posInf
  | negInf, posInf => negInf
  | negInf, negInf => posInf

end JNum

/-- Exact ceiling of the rational `a / b` for integers with `b ≠ 0`,
using Euclidean division (`Int.ediv` is floor division for a positive
divisor). -/
def ceilDivInt (a b : Int) : Int :=
  if 0 < b then -((-a).ediv b) else -(a.ediv (-b))

/-- JavaScript `Math.ceil(a / b)`, covering division by zero
(`x / 0` is `±Infinity` for `x ≠ 0` and `NaN` for `0 / 0`) and the
propagation of `NaN` / `undefined` / infinite operands. -/
def jceilDiv : JNum → JNum → JNum
  | JNum.nan, _ => JNum.nan
  | JNum.undef, _ => JNum.nan
  | _, JNum.nan => JNum.nan
  | _, JNum.undef => JNum.nan
  | JNum.int a, JNum.int b =>
      if b = 0 then
        (if a = 0 then JNum.nan else if 0 < a then JNum.posInf else JNum.negInf)
      else JNum.int (ceilDivInt a b)
  | JNum.int _, JNum.posInf => JNum.int 0
  | JNum.int _, JNum.negInf => JNum.int 0
  | JNum.posInf, JNum.int b => if 0 ≤ b then JNum.posInf else JNum.negInf
  | JNum.posInf, JNum.posInf => JNum.nan
  | JNum.posInf, JNum.negInf => JNum.nan
  | JNum.negInf, JNum.int b => if 0 ≤ b then JNum.negInf else JNum.posInf
  | JNum.negInf, JNum.posInf => JNum.nan
  | JNum.negInf, JNum.negInf => JNum.nan

/-- Result of ECMAScript `ToIntegerOrInfinity`: an integer or an infinity
(`NaN` and `undefined` convert to `0`). -/
inductive IntOrInf where
  | int : Int → IntOrInf
  | posInf : IntOrInf
  | negInf : IntOrInf
deriving DecidableEq, Repr

/-- ECMAScript `ToIntegerOrInfinity` on a `JNum`. -/
def toIntegerOrInfinity : JNum → IntOrInf
  | JNum.int n => IntOrInf.int n
  | JNum.posInf => IntOrInf.posInf
  | JNum.negInf => IntOrInf.negInf
  | JNum.nan => IntOrInf.int 0
  | JNum.undef => IntOrInf.int 0

/-- ECMAScript `Array.prototype.splice` step: the actual start index computed
from `ToIntegerOrInfinity(start)` — a negative value counts from the end and
everything is clamped to `[0, len]`. -/
def spliceActualStart (len : Int) : IntOrInf → Int
  | IntOrInf.negInf => 0
  | IntOrInf.posInf => len
  | IntOrInf.int i => if i < 0 then max (len + i) 0 else min i len

/-- ECMAScript `Array.prototype.splice` step: the actual delete count, clamped
to `[0, len - actualStart]`. -/
def spliceActualDeleteCount (len actualStart : Int) : IntOrInf → Int
  | IntOrInf.negInf => 0
  | IntOrInf.posInf => len - actualStart
  | IntOrInf.int d => min (max d 0) (len - actualStart)

/-- The list of elements removed (and returned) by
`Array.prototype.splice(start, deleteCount)` per the ECMAScript algorithm.
The receiver is mutated in JavaScript; the component only ever calls `splice`
on a fresh copy (`[...dataSource].splice(...)`, line 214), so the extracted
list is all the render path observes. -/
def jsSpliceExtract (xs : List α) (start deleteCount : JNum) : List α :=
  let s := spliceActualStart (xs.length : Int) (toIntegerOrInfinity start)
  (xs.drop s.toNat).take
    (spliceActualDeleteCount (xs.length : Int) s (toIntegerOrInfinity deleteCount)).toNat

/-- The caller-supplied `pagination` configuration object
(`PaginationConfig`, src/components/list/index.tsx line 45). A field holding
`none` means the key is absent from the object; `some JNum.undef` models a key
explicitly present with value `undefined` (object spread copies such keys).
The two event handlers are opaque; only their presence (truthiness) matters to
the component, and handler invocation is modelled as an emitted
`PaginationEffect`. -/
structure PaginationConfig where
  current : Option JNum := none
  pageSize : Option JNum := none
  total : Option JNum := none
  defaultCurrent : Option JNum := none
  defaultPageSize : Option JNum := none
  hasOnChange : Bool := false
  hasOnShowSizeChange : Bool := false
deriving DecidableEq, Repr

/-- The component's pagination shadow state: the two `useState` cells
`paginationCurrent` and `paginationSize` (lines 72-75). -/
structure ListState where
  paginationCurrent : JNum
  paginationSize : JNum
deriving DecidableEq, Repr

/-- JavaScript `x || d` for an optional numeric value, as used to seed the
state cells (`paginationObj.defaultCurrent || 1`,
`paginationObj.defaultPageSize || 10`). -/
def jsOrDefault (x : Option JNum) (d : JNum) : JNum :=
  match x with
  | some v => if v.truthy then v else d
  | none => d

/-- Initial shadow state (lines 70-75): `paginationObj` is the pagination
prop when it is an object and `{}` otherwise. -/
def initialListState (pagination : Option PaginationConfig) : ListState :=
  let paginationObj := match pagination with
    | some pg => pg
    | none => {}
  { paginationCurrent := jsOrDefault paginationObj.defaultCurrent (JNum.int 1)
    paginationSize := jsOrDefault paginationObj.defaultPageSize (JNum.int 10) }

/-- The merged render-time pagination record (lines 189-195):
`{...defaultPaginationProps, total: dataSource.length, current:
paginationCurrent, pageSize: paginationSize, ...(pagination || {})}`.
The defaults `current: 1, total: 0` are always overwritten by the explicit
`total`/`current` entries that follow them; keys present on the caller's
`pagination` object win last. -/
structure PaginationProps where
  current : JNum
  pageSize : JNum
  total : JNum
deriving DecidableEq, Repr

def mergedPaginationProps (dsLength : Nat) (st : ListState)
    (pagination : Option PaginationConfig) : PaginationProps :=
  let base : PaginationProps :=
    { current := st.paginationCurrent
      pageSize := st.paginationSize
      total := JNum.int dsLength }
  match pagination with
  | none => base
  | some pg =>
      { current := pg.current.getD base.current
        pageSize := pg.pageSize.getD base.pageSize
        total := pg.total.getD base.total }

/-- The downward clamp of `current` (lines 197-200):
`largestPage = Math.ceil(total / pageSize); if (current > largestPage)
current = largestPage`. -/
def clampPaginationProps (pp : PaginationProps) : PaginationProps :=
  let largestPage := jceilDiv pp.total pp.pageSize
  if JNum.jgt pp.current largestPage then { pp with current := largestPage }
  else pp

/-- The pagination record actually used for rendering: merge then clamp. -/
def renderPaginationProps (dsLength : Nat) (st : ListState)
    (pagination : Option PaginationConfig) : PaginationProps :=
  clampPaginationProps (mergedPaginationProps dsLength st pagination)

/-- The visible slice (lines 211-219): starts as a copy of `dataSource`;
when pagination is enabled and
`dataSource.length > (current - 1) * pageSize`, it becomes
`[...dataSource].splice((current - 1) * pageSize, pageSize)`. -/
def splitDataSource (ds : List α) (pagination : Option PaginationConfig)
    (pp : PaginationProps) : List α :=
  match pagination with
  | none => ds
  | some _ =>
      let start := JNum.jmul (JNum.jsub pp.current (JNum.int 1)) pp.pageSize
      if JNum.jgt (JNum.int ds.length) start then
        jsSpliceExtract ds start pp.pageSize
      else ds

/-- The `loading` prop: either a boolean or a spin-props object whose
`spinning` key may be absent (`ListProps.loading`, line 43). -/
inductive LoadingProp where
  | bool (b : Bool)
  | spinProps (spinning : Option Bool)
deriving DecidableEq, Repr

/-- Lines 156-162: a boolean `loading` is normalized to `{ spinning: b }`,
then `isLoading = loadingProp && loadingProp.spinning` (truthiness of the
`spinning` field; an absent `spinning` is falsy). -/
def isLoadingOf : LoadingProp → Bool
  | LoadingProp.bool b => b
  | LoadingProp.spinProps s => s.getD false

/-- The shape of `childrenContent` (lines 221-242): the boolean `false`
(renders nothing), the fixed-height loading placeholder
(`<div style={minHeight: 53}/>`), a grid `Row`, the plain `<ul>` item list,
or the empty-state text. -/
inductive ChildrenContent where
  | boolFalse
  | placeholder
  | gridRow
  | itemsUl
  | emptyText
deriving DecidableEq, Repr

/-- Lines 221-242: `childrenContent = isLoading && <div minHeight/>`; when the
visible slice is non-empty it becomes the grid row or the `<ul>` of items;
otherwise, when there are no extra children and not loading, the empty-state
node. -/
def childrenContentOf (isLoading hasChildren hasGrid : Bool) (sliceLength : Nat) :
    ChildrenContent :=
  let c := if isLoading then ChildrenContent.placeholder else ChildrenContent.boolFalse
  if 0 < sliceLength then
    (if hasGrid then ChildrenContent.gridRow else ChildrenContent.itemsUl)
  else if ¬ hasChildren ∧ ¬ isLoading then ChildrenContent.emptyText
  else c

/-- The children of the `Spin` wrapper (lines 251-254):
`<Spin {...}>{childrenContent}{children}</Spin>` — the computed body plus the
caller-supplied extra children, always both. -/
structure SpinBody where
  content : ChildrenContent
  hasExtraChildren : Bool
deriving DecidableEq, Repr

def spinBodyOf (isLoading hasChildren hasGrid : Bool) (sliceLength : Nat) : SpinBody :=
  { content := childrenContentOf isLoading hasChildren hasGrid sliceLength
    hasExtraChildren := hasChildren }

/-- The props of the collection view that the pagination / body computation
reads (function-valued props `renderItem` and `rowKey` are passed to the
item-assembly functions separately). -/
structure ListProps (α : Type) where
  dataSource : List α := []
  pagination : Option PaginationConfig := none
  hasChildren : Bool := false
  hasGrid : Bool := false
  loading : LoadingProp := LoadingProp.bool false
deriving DecidableEq, Repr

/-- Everything one render pass of the component derives, together with the
shadow state and data source as they stand after the pass. Rendering calls no
state setter (the only `setPaginationCurrent` / `setPaginationSize` calls live
in `triggerPaginationEvent`, lines 86-94), so `stateAfter` is the incoming
state; the clamp writes only into the freshly built `paginationProps` record,
and the slice is taken from a spread copy of `dataSource`, so
`dataSourceAfter` is the incoming data source. -/
structure RenderResult (α : Type) where
  stateAfter : ListState
  dataSourceAfter : List α
  paginationProps : PaginationProps
  splitDataSource : List α
  body : SpinBody
deriving DecidableEq, Repr

/-- One render pass (lines 189-254), restricted to the state, slice and body
derivations the claims are about. -/
def renderPass (st : ListState) (props : ListProps α) : RenderResult α :=
  let pp := renderPaginationProps props.dataSource.length st props.pagination
  let slice := splitDataSource props.dataSource props.pagination pp
  { stateAfter := st
    dataSourceAfter := props.dataSource
    paginationProps := pp
    splitDataSource := slice
    body := spinBodyOf (isLoadingOf props.loading) props.hasChildren props.hasGrid
      slice.length }

/-- The `rowKey` prop: a key-extraction function or a field name
(line 47); `none` models an absent `rowKey`. The function may return
`undefined` (`none`). -/
inductive RowKey (α : Type) where
  | fn (f : α → Option String)
  | field (name : String)

/-- Key resolution for one rendered item (lines 104-116): a function `rowKey`
is applied to the item; a string `rowKey` reads that field off the item;
otherwise the item's own `key` field is read; a falsy result (`undefined` or
the empty string) falls back to the synthetic `list-item-<index>` key.
Property access on the arbitrary item type is supplied as `getField`. -/
def resolveKey (getField : α → String → Option String)
    (rowKey : Option (RowKey α)) (item : α) (index : Nat) : String :=
  let key : Option String :=
    match rowKey with
    | some (RowKey.fn f) => f item
    | some (RowKey.field name) => getField item name
    | none => getField item "key"
  match key with
  | some s => if s = "" then "list-item-" ++ toString index else s
  | none => "list-item-" ++ toString index

/-- A rendered React element; only the identity key attached to it matters to
the claims. -/
structure RNode where
  tag : String := ""
  key : Option String := none
deriving DecidableEq, Repr

/-- `React.cloneElement(child, { key })`: returns a copy of the element with
the key attached when `key` is defined. React requires a valid element: when
the argument is `null` (or `undefined`) it throws
"React.cloneElement(...): The argument must be a React element". -/
def cloneElement (child : Option RNode) (key : Option String) : Except String RNode :=
  match child with
  | some n =>
      Except.ok { n with key := match key with | some k => some k | none => n.key }
  | none => Except.error "React.cloneElement(...): The argument must be a React element"

/-- The component's `renderItem` helper (lines 100-121): when the caller
supplied no `renderItem` prop it returns `null` without recording a key
(`if (!props.renderItem) return null`); otherwise it resolves the item's key,
records it in the ephemeral `keys` map, and returns the caller-rendered node.
The returned pair is (rendered node, recorded key for this index). -/
def renderItemOf (renderItemProp : Option (α → Nat → Option RNode))
    (getField : α → String → Option String) (rowKey : Option (RowKey α))
    (item : α) (index : Nat) : Option RNode × Option String :=
  match renderItemProp with
  | none => (none, none)
  | some ri => (ri item index, some (resolveKey getField rowKey item index))

/-- Lines 224-233: `items = splitDataSource.map(renderItem)`, then
`React.Children.forEach(items, child => childrenList.push(
React.cloneElement(child, { key: keys[index] })))`. `React.Children.forEach`
visits `null` children too, so every rendered `null` reaches `cloneElement`;
the first throw aborts the pass (modelled by `Except`). -/
def buildChildrenList (renderItemProp : Option (α → Nat → Option RNode))
    (getField : α → String → Option String) (rowKey : Option (RowKey α))
    (slice : List α) : Except String (List RNode) :=
  slice.enum.mapM (fun p =>
    let r := renderItemOf renderItemProp getField rowKey p.2 p.1
    cloneElement r.1 r.2)

/-- Observable effects of a pagination-control event handler, in program
order: the two state-setter calls and the optional caller-handler
invocation. -/
inductive PaginationEffect where
  | setPaginationCurrent (v : JNum)
  | setPaginationSize (v : JNum)
  | callerHandler (eventName : String) (page : JNum) (pageSize : JNum)
deriving DecidableEq, Repr

/-- Truthiness of `pagination && pagination[eventName]` (line 90) for the two
events the component wires up. -/
def paginationHasHandler (pagination : Option PaginationConfig)
    (eventName : String) : Bool :=
  match pagination with
  | none => false
  | some pg =>
      if eventName = "onChange" then pg.hasOnChange
      else if eventName = "onShowSizeChange" then pg.hasOnShowSizeChange
      else false

/-- `triggerPaginationEvent(eventName)(page, pageSize)` (lines 86-94):
`setPaginationCurrent(page); setPaginationSize(pageSize);` then, when the
caller supplied a handler of that name on the pagination object, the handler
is called with the same `(page, pageSize)`. Returns the shadow state as the
setters leave it, plus the ordered effect trace. -/
def triggerPaginationEvent (eventName : String)
    (pagination : Option PaginationConfig) (st : ListState)
    (page pageSize : JNum) : ListState × List PaginationEffect :=
  let st1 := { st with paginationCurrent := page }
  let st2 := { st1 with paginationSize := pageSize }
  let setEffects := [PaginationEffect.setPaginationCurrent page,
    PaginationEffect.setPaginationSize pageSize]
  if paginationHasHandler pagination eventName then
    (st2, setEffects ++ [PaginationEffect.callerHandler eventName page pageSize])
  else (st2, setEffects)

/-- Text direction, as accepted by the configuration provider (line 314). -/
inductive Direction where
  | ltr
  | rtl
deriving DecidableEq, Repr

/-- A JavaScript string-to-string record (the validation-messages objects),
as an ordered list of key-value entries. JavaScript objects never hold two
entries for one key; reads take the first entry for a key. -/
abbrev JObj := List (String × String)

/-- JavaScript property read `o[k]` on a string record: first entry wins,
`none` is `undefined`. -/
def jget (o : JObj) (k : String) : Option String :=
  match o with
  | [] => none
  | p :: rest => if p.1 = k then some p.2 else jget rest k

/-- `a ?? b` on optional values: the left one wins when present. -/
def jor (a b : Option String) : Option String :=
  match a with
  | some v => some v
  | none => b

/-- JavaScript object spread `{...a, ...b}`: keys of `a` keep their positions
(their values overridden by `b` where both records have the key), keys only
in `b` are appended in order. -/
def spreadMerge (a b : JObj) : JObj :=
  a.map (fun p => (p.1, (jget b p.1).getD p.2))
    ++ b.filter (fun q => (jget a q.1).isNone)

/-- The `Form` part of a locale: `locale.Form.defaultValidateMessages`
(line 375). -/
structure FormLocale where
  defaultValidateMessages : Option JObj := none
deriving DecidableEq, Repr

/-- A locale object as the configuration provider consumes it; only the
`Form` subtree matters to the claims. -/
structure Locale where
  Form : Option FormLocale := none
deriving DecidableEq, Repr

/-- The `form` prop of the configuration provider: `{ validateMessages? }`
(lines 306-308). -/
structure FormConfig where
  validateMessages : Option JObj := none
deriving DecidableEq, Repr

/-- Lines 373-380: `let validateMessages = {}`; when
`locale && locale.Form && locale.Form.defaultValidateMessages` is truthy it
becomes those defaults; when `form && form.validateMessages` is truthy the
local messages are spread on top (local wins key-by-key). Note the code reads
the locally supplied `locale` prop here, not the `locale || legacyLocale`
fallback used for `config.locale`. -/
def mergedValidateMessages (locale : Option Locale) (form : Option FormConfig) : JObj :=
  let vm0 : JObj := []
  let vm1 := match locale with
    | some l =>
        match l.Form with
        | some lf =>
            match lf.defaultValidateMessages with
            | some m => m
            | none => vm0
        | none => vm0
    | none => vm0
  match form with
  | some f =>
      match f.validateMessages with
      | some m => spreadMerge vm1 m
      | none => vm1
  | none => vm1

/-- Modelled from the spec's words, for comparison with the source behaviour
(claim C9): spec section 4.2 step 5 resolves the locale as
"local explicit locale wins; otherwise fall back to a legacy locale", and
step 6 merges in "the resolved locale's default validation messages". -/
def mergedValidateMessagesSpec (locale legacyLocale : Option Locale)
    (form : Option FormConfig) : JObj :=
  mergedValidateMessages
    (match locale with | some l => some l | none => legacyLocale) form

/-- The provider's child wrapping (lines 382-384): children are wrapped in an
`RcFormProvider` scope exactly when the merged validation messages object has
at least one key. -/
inductive ChildNode where
  | plain
  | wrappedInFormProvider (validateMessages : JObj)
deriving DecidableEq, Repr

def renderChildNode (locale : Option Locale) (form : Option FormConfig) : ChildNode :=
  if 0 < (mergedValidateMessages locale form).length then
    ChildNode.wrappedInFormProvider (mergedValidateMessages locale form)
  else ChildNode.plain

/-- The ambient configuration context a provider republishes (`context.ts`
consumer props). The `getPrefixCls` function (always rebuilt from a wrapper,
line 350) is elided: no claim mentions it. Opaque function/object-valued
entries (`csp`, `space`, `getPopupContainer`, `renderEmpty`, `pageHeader`)
are modelled by presence tokens. -/
structure ConfigConsumerProps where
  direction : Option Direction := none
  locale : Option Locale := none
  csp : Option Unit := none
  autoInsertSpaceInButton : Option Bool := none
  space : Option Unit := none
  getPopupContainer : Option Unit := none
  renderEmpty : Option Unit := none
  pageHeader : Option Unit := none
deriving DecidableEq, Repr

/-- The props of a configuration provider instance (lines 299-318),
restricted to the merged fields. -/
structure ConfigProviderProps where
  direction : Option Direction := none
  locale : Option Locale := none
  form : Option FormConfig := none
  csp : Option Unit := none
  autoInsertSpaceInButton : Option Bool := none
  space : Option Unit := none
  getPopupContainer : Option Unit := none
  renderEmpty : Option Unit := none
  pageHeader : Option Unit := none
deriving DecidableEq, Repr

/-- `renderProvider` context merge (lines 348-368):
`config = {...context, getPrefixCls: wrapper, csp, autoInsertSpaceInButton,
locale: locale || legacyLocale, direction, space}` — these five keys are set
from local props unconditionally, `undefined` included — followed by the
conditional overwrites of `getPopupContainer`, `renderEmpty` and
`pageHeader`, which keep the inherited value when the prop is absent. -/
def renderProviderConfig (context : ConfigConsumerProps)
    (legacyLocale : Option Locale) (props : ConfigProviderProps) :
    ConfigConsumerProps :=
  let config : ConfigConsumerProps :=
    { context with
      csp := props.csp
      autoInsertSpaceInButton := props.autoInsertSpaceInButton
      locale := match props.locale with | some l => some l | none => legacyLocale
      direction := props.direction
      space := props.space }
  let config2 := match props.getPopupContainer with
    | some g => { config with getPopupContainer := some g }
    | none => config
  let config3 := match props.renderEmpty with
    | some r => { config2 with renderEmpty := some r }
    | none => config2
  match props.pageHeader with
  | some ph => { config3 with pageHeader := some ph }
  | none => config3

/-- The exact ceiling of `n / p` is at least `1` once `n ≥ 1` and `p ≥ 1`. -/
theorem ceilDivInt_pos {n p : Int} (hn : 1 ≤ n) (hp : 1 ≤ p) : 1 ≤ ceilDivInt n p := by
  unfold ceilDivInt
  rw [if_pos (by omega : (0:Int) < p)]
  have h := Int.ediv_neg' (a := -n) (b := p) (by omega) (by omega)
  rw [Int.div_def] at h
  omega

/-- C1 (counterexample): with an empty data source and pagination enabled with
all defaults (shadow state seeds to `current = 1`, `pageSize = 10`), the clamp
computes `largestPage = ceil(0 / 10) = 0` and, since `1 > 0`, sets the
effective current page to `0` — not `1` as the claim's "left at 1" policy
states, and below the claimed lower bound of `1`. -/
theorem c1_counterexample :
    (renderPaginationProps 0 (initialListState (some {})) (some {})).current
      = JNum.int 0 ∧ JNum.int 0 ≠ JNum.int 1 := by
  constructor
  · rfl
  · decide

/-- C1 (amended): for pagination enabled with integer `pageSize = p ≥ 1` and
integer incoming `current = c`, the effective current page after the render
pass is `ceil(n/p)` whenever `c` exceeds `ceil(n/p)` and `c` itself otherwise;
the result is at least `1` whenever `n ≥ 1` and `c ≥ 1`, but when `n = 0` the
clamp yields `ceil(0/p) = 0` rather than leaving `current` at `1`. -/
theorem c1_clamp_amended (n : Nat) (st : ListState) (pg : PaginationConfig)
    (c p : Int)
    (hcur : pg.current = some (JNum.int c))
    (hps : pg.pageSize = some (JNum.int p))
    (ht : pg.total = none)
    (hp : 1 ≤ p) :
    (renderPaginationProps n st (some pg)).current
      = JNum.int (if ceilDivInt (n : Int) p < c then ceilDivInt (n : Int) p else c) ∧
    (1 ≤ (n : Int) → 1 ≤ c →
      1 ≤ if ceilDivInt (n : Int) p < c then ceilDivInt (n : Int) p else c) := by
  have hp0 : p ≠ 0 := by omega
  constructor
  · simp only [renderPaginationProps, mergedPaginationProps, clampPaginationProps,
      hcur, hps, ht, Option.getD_some, Option.getD_none, jceilDiv, hp0, if_false,
      JNum.jgt, decide_eq_true_eq]
    by_cases h : ceilDivInt (n : Int) p < c
    · simp [h]
    · simp [h]
  · intro hn hc
    by_cases h : ceilDivInt (n : Int) p < c
    · rw [if_pos h]
      exact ceilDivInt_pos hn hp
    · rw [if_neg h]
      exact hc

/-- Witness for C1 (amended): a data source of length 5 with `pageSize = 2`
and incoming `current = 7` is clamped to `ceil(5/2) = 3`. -/
theorem c1_clamp_amended_witness :
    (renderPaginationProps 5
        { paginationCurrent := JNum.int 1, paginationSize := JNum.int 10 }
        (some { current := some (JNum.int 7), pageSize := some (JNum.int 2) })).current
      = JNum.int (if ceilDivInt ((5 : Nat) : Int) 2 < 7
          then ceilDivInt ((5 : Nat) : Int) 2 else 7) ∧
    (1 ≤ ((5 : Nat) : Int) → 1 ≤ (7 : Int) →
      1 ≤ if ceilDivInt ((5 : Nat) : Int) 2 < 7
          then ceilDivInt ((5 : Nat) : Int) 2 else 7) :=
  c1_clamp_amended 5
    { paginationCurrent := JNum.int 1, paginationSize := JNum.int 10 }
    { current := some (JNum.int 7), pageSize := some (JNum.int 2) }
    7 2 rfl rfl rfl (by decide)

/-- C2: with pagination enabled, an integer effective current page `c ≥ 1` and
integer `pageSize = p ≥ 1`, the visible slice is the contiguous window of
`dataSource` starting at index `(c-1)*p` of length `min(p, n - (c-1)*p)` when
`(c-1)*p < n`, and the full data source otherwise (stale-page fallback). -/
theorem c2_visible_slice {α : Type} (ds : List α) (pg : PaginationConfig)
    (c p : Int) (t : JNum) (hc : 1 ≤ c) (hp : 1 ≤ p) :
    splitDataSource ds (some pg)
        { current := JNum.int c, pageSize := JNum.int p, total := t }
      = if (c - 1) * p < (ds.length : Int) then
          (ds.drop ((c - 1) * p).toNat).take
            (min p ((ds.length : Int) - (c - 1) * p)).toNat
        else ds := by
  have hs0 : 0 ≤ (c - 1) * p := mul_nonneg (by omega) (by omega)
  simp only [splitDataSource, JNum.jsub, JNum.jmul, JNum.jgt, decide_eq_true_eq]
  by_cases h : (c - 1) * p < (ds.length : Int)
  · rw [if_pos h, if_pos h]
    simp only [jsSpliceExtract, toIntegerOrInfinity, spliceActualStart,
      spliceActualDeleteCount]
    rw [if_neg (by omega : ¬ ((c - 1) * p < 0)), min_eq_left (le_of_lt h),
      max_eq_left (by omega : (0 : Int) ≤ p)]
  · rw [if_neg h, if_neg h]

/-- Witness for C2: page 2 of `[0,1,2,3,4]` with `pageSize = 2` is the window
starting at index 2 of length `min 2 3 = 2`. -/
theorem c2_visible_slice_witness :
    1 ≤ (2 : Int) ∧
    splitDataSource [0, 1, 2, 3, 4] (some {})
        { current := JNum.int 2, pageSize := JNum.int 2, total := JNum.int 5 }
      = if ((2 : Int) - 1) * 2 < (([0, 1, 2, 3, 4] : List Nat).length : Int) then
          (([0, 1, 2, 3, 4] : List Nat).drop (((2 : Int) - 1) * 2).toNat).take
            (min 2 ((([0, 1, 2, 3, 4] : List Nat).length : Int) - ((2 : Int) - 1) * 2)).toNat
        else [0, 1, 2, 3, 4] :=
  ⟨by decide,
    c2_visible_slice [0, 1, 2, 3, 4] {} 2 2 (JNum.int 5) (by decide) (by decide)⟩

/-- C8 (counterexample): with `dataSource = [0]` and pagination enabled with
`pageSize: 0`, the render pass does not fall back to the full data source: the
slice condition `1 > (1-1)*0` holds and `splice(0, 0)` extracts the empty
slice, so nothing of the data source is rendered. -/
theorem c8_counterexample :
    splitDataSource [(0 : Nat)] (some { pageSize := some (JNum.int 0) })
        (renderPaginationProps 1
          (initialListState (some { pageSize := some (JNum.int 0) }))
          (some { pageSize := some (JNum.int 0) }))
      ≠ [(0 : Nat)] := by decide

/-- C8 (amended): a falsy or non-positive `pageSize` never crashes the render
pass, and the outcome splits by value. With an explicitly-`undefined` or `NaN`
`pageSize`, every pagination comparison is `NaN`-false: the clamp leaves
`current` untouched and the slice condition fails, so the full data source is
rendered (the claimed no-pagination fallback). With a negative integer
`pageSize` and an incoming integer `current ≥ 1`, the clamp sets `current` to
`ceil(n/pageSize) ≤ 0` and the slice condition
`n > (current-1)*pageSize` fails, so the full data source is again rendered.
Only `pageSize = 0` deviates from the claim: `Math.ceil(total / 0)` is
`Infinity` (or `NaN` when `total = 0`), so the clamp is still a no-op, but
`splice((current-1)*0, 0)` extracts an empty visible slice instead of falling
back to the full data source. -/
theorem c8_falsy_pagesize_amended {α : Type} (ds : List α) (c p : Int) (sz : JNum)
    (pg : PaginationConfig)
    (hcur : pg.current = none) (ht : pg.total = none) :
    (pg.pageSize = some (JNum.int 0) →
      splitDataSource ds (some pg)
          (renderPaginationProps ds.length
            { paginationCurrent := JNum.int c, paginationSize := sz } (some pg)) = [] ∧
      (renderPaginationProps ds.length
          { paginationCurrent := JNum.int c, paginationSize := sz } (some pg)).current
        = JNum.int c) ∧
    (pg.pageSize = some JNum.undef →
      splitDataSource ds (some pg)
          (renderPaginationProps ds.length
            { paginationCurrent := JNum.int c, paginationSize := sz } (some pg)) = ds ∧
      (renderPaginationProps ds.length
          { paginationCurrent := JNum.int c, paginationSize := sz } (some pg)).current
        = JNum.int c) ∧
    (pg.pageSize = some JNum.nan →
      splitDataSource ds (some pg)
          (renderPaginationProps ds.length
            { paginationCurrent := JNum.int c, paginationSize := sz } (some pg)) = ds ∧
      (renderPaginationProps ds.length
          { paginationCurrent := JNum.int c, paginationSize := sz } (some pg)).current
        = JNum.int c) ∧
    (pg.pageSize = some (JNum.int p) → p ≤ -1 → 1 ≤ c →
      splitDataSource ds (some pg)
          (renderPaginationProps ds.length
            { paginationCurrent := JNum.int c, paginationSize := sz } (some pg)) = ds) := by
  refine ⟨?_, ?_, ?_, ?_⟩
  · intro hps
    have hpp : renderPaginationProps ds.length
        { paginationCurrent := JNum.int c, paginationSize := sz } (some pg)
        = { current := JNum.int c, pageSize := JNum.int 0,
            total := JNum.int ds.length } := by
      simp only [renderPaginationProps, mergedPaginationProps, clampPaginationProps,
        hps, hcur, ht, Option.getD_some, Option.getD_none, jceilDiv]
      by_cases hlen : (ds.length : Int) = 0
      · simp [hlen, JNum.jgt]
      · have hpos : 0 < (ds.length : Int) := by
          have := Int.natCast_nonneg ds.length
          omega
        simp [hlen, hpos, JNum.jgt]
    rw [hpp]
    constructor
    · simp only [splitDataSource, JNum.jsub, JNum.jmul, mul_zero, JNum.jgt,
        decide_eq_true_eq]
      by_cases hlen : 0 < (ds.length : Int)
      · rw [if_pos hlen]
        simp [jsSpliceExtract, toIntegerOrInfinity, spliceActualStart,
          spliceActualDeleteCount]
      · rw [if_neg hlen]
        have : ds.length = 0 := by omega
        exact List.length_eq_zero.mp this
    · rfl
  · intro hps
    have hpp : renderPaginationProps ds.length
        { paginationCurrent := JNum.int c, paginationSize := sz } (some pg)
        = { current := JNum.int c, pageSize := JNum.undef,
            total := JNum.int ds.length } := by
      simp [renderPaginationProps, mergedPaginationProps, clampPaginationProps,
        hps, hcur, ht, jceilDiv, JNum.jgt]
    rw [hpp]
    refine ⟨?_, rfl⟩
    simp [splitDataSource, JNum.jsub, JNum.jmul, JNum.jgt]
  · intro hps
    have hpp : renderPaginationProps ds.length
        { paginationCurrent := JNum.int c, paginationSize := sz } (some pg)
        = { current := JNum.int c, pageSize := JNum.nan,
            total := JNum.int ds.length } := by
      simp [renderPaginationProps, mergedPaginationProps, clampPaginationProps,
        hps, hcur, ht, jceilDiv, JNum.jgt]
    rw [hpp]
    refine ⟨?_, rfl⟩
    simp [splitDataSource, JNum.jsub, JNum.jmul, JNum.jgt]
  · intro hps hneg hc
    have hp0 : p ≠ 0 := by omega
    have hnot : ¬ (0 < p) := by omega
    have hlp : ceilDivInt (ds.length : Int) p = -((ds.length : Int).ediv (-p)) := by
      unfold ceilDivInt
      rw [if_neg hnot]
    have hq0 : 0 ≤ (ds.length : Int).ediv (-p) :=
      Int.ediv_nonneg (Int.natCast_nonneg _) (by omega)
    have hlt : (ds.length : Int) < ((ds.length : Int).ediv (-p) + 1) * (-p) := by
      have h := Int.lt_ediv_add_one_mul_self (ds.length : Int) (b := -p) (by omega)
      rw [Int.div_def] at h
      exact h
    have hpp : renderPaginationProps ds.length
        { paginationCurrent := JNum.int c, paginationSize := sz } (some pg)
        = { current := JNum.int (ceilDivInt (ds.length : Int) p),
            pageSize := JNum.int p, total := JNum.int ds.length } := by
      simp only [renderPaginationProps, mergedPaginationProps, clampPaginationProps,
        hps, hcur, ht, Option.getD_some, Option.getD_none, jceilDiv, hp0, if_false,
        JNum.jgt]
      have hfire : ceilDivInt (ds.length : Int) p < c := by
        rw [hlp]
        omega
      simp [hfire]
    rw [hpp]
    simp only [splitDataSource, JNum.jsub, JNum.jmul, JNum.jgt, decide_eq_true_eq]
    have hncond : ¬ ((ceilDivInt (ds.length : Int) p - 1) * p < (ds.length : Int)) := by
      rw [hlp]
      intro hcon
      have hring : (-((ds.length : Int).ediv (-p)) - 1) * p
          = ((ds.length : Int).ediv (-p) + 1) * (-p) := by ring
      rw [hring] at hcon
      linarith
    rw [if_neg hncond]

/-- Witness for C8 (amended): `dataSource = [0,1,2]`, `pageSize: 0`, shadow
current `5` — the live conjunct gives the empty slice with `current`
untouched. -/
theorem c8_falsy_pagesize_amended_witness :
    (({ pageSize := some (JNum.int 0) } : PaginationConfig).pageSize
        = some (JNum.int 0) →
      splitDataSource [0, 1, 2] (some { pageSize := some (JNum.int 0) })
          (renderPaginationProps ([0, 1, 2] : List Nat).length
            { paginationCurrent := JNum.int 5, paginationSize := JNum.int 10 }
            (some { pageSize := some (JNum.int 0) })) = [] ∧
      (renderPaginationProps ([0, 1, 2] : List Nat).length
          { paginationCurrent := JNum.int 5, paginationSize := JNum.int 10 }
          (some { pageSize := some (JNum.int 0) })).current
        = JNum.int 5) ∧
    (({ pageSize := some (JNum.int 0) } : PaginationConfig).pageSize
        = some JNum.undef →
      splitDataSource [0, 1, 2] (some { pageSize := some (JNum.int 0) })
          (renderPaginationProps ([0, 1, 2] : List Nat).length
            { paginationCurrent := JNum.int 5, paginationSize := JNum.int 10 }
            (some { pageSize := some (JNum.int 0) })) = [0, 1, 2] ∧
      (renderPaginationProps ([0, 1, 2] : List Nat).length
          { paginationCurrent := JNum.int 5, paginationSize := JNum.int 10 }
          (some { pageSize := some (JNum.int 0) })).current
        = JNum.int 5) ∧
    (({ pageSize := some (JNum.int 0) } : PaginationConfig).pageSize
        = some JNum.nan →
      splitDataSource [0, 1, 2] (some { pageSize := some (JNum.int 0) })
          (renderPaginationProps ([0, 1, 2] : List Nat).length
            { paginationCurrent := JNum.int 5, paginationSize := JNum.int 10 }
            (some { pageSize := some (JNum.int 0) })) = [0, 1, 2] ∧
      (renderPaginationProps ([0, 1, 2] : List Nat).length
          { paginationCurrent := JNum.int 5, paginationSize := JNum.int 10 }
          (some { pageSize := some (JNum.int 0) })).current
        = JNum.int 5) ∧
    (({ pageSize := some (JNum.int 0) } : PaginationConfig).pageSize
        = some (JNum.int (-2)) → (-2 : Int) ≤ -1 → 1 ≤ (5 : Int) →
      splitDataSource [0, 1, 2] (some { pageSize := some (JNum.int 0) })
          (renderPaginationProps ([0, 1, 2] : List Nat).length
            { paginationCurrent := JNum.int 5, paginationSize := JNum.int 10 }
            (some { pageSize := some (JNum.int 0) })) = [0, 1, 2]) :=
  c8_falsy_pagesize_amended [0, 1, 2] 5 (-2) (JNum.int 10)
    { pageSize := some (JNum.int 0) } rfl rfl

/-- C3 (counterexample): with `loading = true` and the non-empty visible slice
`[0]`, the rendered body is the `<ul>` of items (the spinner merely overlays
it), not the fixed-height placeholder the claim describes. -/
theorem c3_counterexample :
    (renderPass { paginationCurrent := JNum.int 1, paginationSize := JNum.int 10 }
        { dataSource := [(0 : Nat)], loading := LoadingProp.bool true }).body.content
      = ChildrenContent.itemsUl ∧
    ChildrenContent.itemsUl ≠ ChildrenContent.placeholder := by decide

/-- C3 (amended): when `loading` is truthy, the body is the fixed-height
placeholder exactly when the visible slice is empty; with a non-empty slice
the item list (grid row or `<ul>`) remains rendered under the spinner. In
both cases the caller-supplied extra children are still rendered alongside
the body inside the `Spin` wrapper. -/
theorem c3_loading_amended {α : Type} (st : ListState) (props : ListProps α)
    (hload : isLoadingOf props.loading = true) :
    ((renderPass st props).splitDataSource = [] →
      (renderPass st props).body
        = { content := ChildrenContent.placeholder
            hasExtraChildren := props.hasChildren }) ∧
    ((renderPass st props).splitDataSource ≠ [] →
      (renderPass st props).body
        = { content := if props.hasGrid then ChildrenContent.gridRow
              else ChildrenContent.itemsUl
            hasExtraChildren := props.hasChildren }) := by
  constructor
  · intro hempty
    simp only [renderPass] at hempty ⊢
    rw [hempty]
    simp [spinBodyOf, childrenContentOf, hload]
  · intro hne
    simp only [renderPass] at hne ⊢
    have hpos : 0 < (splitDataSource props.dataSource props.pagination
        (renderPaginationProps props.dataSource.length st props.pagination)).length :=
      List.length_pos.mpr hne
    simp [spinBodyOf, childrenContentOf, hload, hpos]

/-- Witness for C3 (amended): empty data source, `loading = true`, extra
children present — the body is the placeholder and the children survive. -/
theorem c3_loading_amended_witness :
    ((renderPass { paginationCurrent := JNum.int 1, paginationSize := JNum.int 10 }
        { dataSource := ([] : List Nat), loading := LoadingProp.bool true,
          hasChildren := true }).splitDataSource = [] →
      (renderPass { paginationCurrent := JNum.int 1, paginationSize := JNum.int 10 }
          { dataSource := ([] : List Nat), loading := LoadingProp.bool true,
            hasChildren := true }).body
        = { content := ChildrenContent.placeholder, hasExtraChildren := true }) ∧
    ((renderPass { paginationCurrent := JNum.int 1, paginationSize := JNum.int 10 }
        { dataSource := ([] : List Nat), loading := LoadingProp.bool true,
          hasChildren := true }).splitDataSource ≠ [] →
      (renderPass { paginationCurrent := JNum.int 1, paginationSize := JNum.int 10 }
          { dataSource := ([] : List Nat), loading := LoadingProp.bool true,
            hasChildren := true }).body
        = { content := if false then ChildrenContent.gridRow
              else ChildrenContent.itemsUl
            hasExtraChildren := true }) :=
  c3_loading_amended
    { paginationCurrent := JNum.int 1, paginationSize := JNum.int 10 }
    { dataSource := ([] : List Nat), loading := LoadingProp.bool true,
      hasChildren := true }
    rfl

/-- The provider merge always publishes the locally supplied `direction`
(even `undefined`): the conditional overwrites that follow it touch only
`getPopupContainer`, `renderEmpty` and `pageHeader`. -/
theorem renderProviderConfig_direction (ctx : ConfigConsumerProps)
    (legacy : Option Locale) (props : ConfigProviderProps) :
    (renderProviderConfig ctx legacy props).direction = props.direction := by
  unfold renderProviderConfig
  cases props.getPopupContainer <;> cases props.renderEmpty <;>
    cases props.pageHeader <;> rfl

/-- C4 (counterexample): an outer provider with `direction='rtl'` and a nested
inner provider that supplies no `direction` — descendants beneath the inner
provider observe `undefined` (the inner provider overwrites the inherited
value with its own `undefined` prop), not `'rtl'` as the claim states. -/
theorem c4_counterexample :
    (renderProviderConfig
        (renderProviderConfig {} none { direction := some Direction.rtl })
        none {}).direction = none ∧
    (none : Option Direction) ≠ some Direction.rtl := by decide

/-- C4 (amended): nesting providers, with the outer one setting
`direction='rtl'`: descendants under an inner provider that supplies no
`direction` observe `undefined` (the inner provider clobbers the inherited
value — step 4 of the merge sets `direction` from local props
unconditionally); descendants under an inner provider that sets
`direction='ltr'` observe `'ltr'`; descendants under the outer provider but
outside the inner one observe `'rtl'`. -/
theorem c4_direction_amended (ctx : ConfigConsumerProps)
    (legacy1 legacy2 : Option Locale) (outer inner : ConfigProviderProps)
    (houter : outer.direction = some Direction.rtl) :
    (inner.direction = none →
      (renderProviderConfig (renderProviderConfig ctx legacy1 outer) legacy2
        inner).direction = none) ∧
    (inner.direction = some Direction.ltr →
      (renderProviderConfig (renderProviderConfig ctx legacy1 outer) legacy2
        inner).direction = some Direction.ltr) ∧
    (renderProviderConfig ctx legacy1 outer).direction = some Direction.rtl := by
  refine ⟨?_, ?_, ?_⟩
  · intro h
    rw [renderProviderConfig_direction, h]
  · intro h
    rw [renderProviderConfig_direction, h]
  · rw [renderProviderConfig_direction, houter]

/-- Witness for C4 (amended): concrete nested providers. -/
theorem c4_direction_amended_witness :
    (({} : ConfigProviderProps).direction = none →
      (renderProviderConfig
        (renderProviderConfig {} none { direction := some Direction.rtl })
        none {}).direction = none) ∧
    (({} : ConfigProviderProps).direction = some Direction.ltr →
      (renderProviderConfig
        (renderProviderConfig {} none { direction := some Direction.rtl })
        none {}).direction = some Direction.ltr) ∧
    (renderProviderConfig {} none
        { direction := some Direction.rtl }).direction = some Direction.rtl :=
  c4_direction_amended {} none none { direction := some Direction.rtl } {} rfl

/-- C5: key precedence for a rendered item. A key-extraction function wins
(its non-falsy result is used even when the item also carries a `key` field);
without the function, a string `rowKey` reads that field; without both, the
item's own `key` field is used; when the chain yields no (truthy) key the
synthetic `list-item-<index>` key derived from the slice position is used. -/
theorem c5_key_precedence {α : Type} (getField : α → String → Option String)
    (f : α → Option String) (name : String) (item fallbackItem : α) (index : Nat)
    (sf sfield skey : String)
    (hf : f item = some sf) (hsf : sf ≠ "")
    (hfield : getField item name = some sfield) (hsfield : sfield ≠ "")
    (hkey : getField item "key" = some skey) (hskey : skey ≠ "")
    (hfb : getField fallbackItem "key" = none ∨ getField fallbackItem "key" = some "") :
    resolveKey getField (some (RowKey.fn f)) item index = sf ∧
    resolveKey getField (some (RowKey.field name)) item index = sfield ∧
    resolveKey getField none item index = skey ∧
    resolveKey getField none fallbackItem index = "list-item-" ++ toString index := by
  refine ⟨?_, ?_, ?_, ?_⟩
  · simp [resolveKey, hf, hsf]
  · simp [resolveKey, hfield, hsfield]
  · simp [resolveKey, hkey, hskey]
  · rcases hfb with h | h <;> simp [resolveKey, h]

/-- Witness for C5: an item carrying both a `key` field and an `id` field,
with a key-extraction function returning "F"; the fallback item has no
fields at all. -/
theorem c5_key_precedence_witness :
    resolveKey
        (fun (b : Bool) k =>
          if b then (if k = "key" then some "K"
            else if k = "id" then some "I" else none) else none)
        (some (RowKey.fn (fun _ => some "F"))) true 3 = "F" ∧
    resolveKey
        (fun (b : Bool) k =>
          if b then (if k = "key" then some "K"
            else if k = "id" then some "I" else none) else none)
        (some (RowKey.field "id")) true 3 = "I" ∧
    resolveKey
        (fun (b : Bool) k =>
          if b then (if k = "key" then some "K"
            else if k = "id" then some "I" else none) else none)
        none true 3 = "K" ∧
    resolveKey
        (fun (b : Bool) k =>
          if b then (if k = "key" then some "K"
            else if k = "id" then some "I" else none) else none)
        none false 3 = "list-item-" ++ toString 3 :=
  c5_key_precedence
    (fun (b : Bool) k =>
      if b then (if k = "key" then some "K"
        else if k = "id" then some "I" else none) else none)
    (fun _ => some "F") "id" true false 3 "F" "I" "K"
    rfl (by decide) rfl (by decide) rfl (by decide) (Or.inl rfl)

/-- C6: a pagination-control change event with arguments `(page, pageSize)`
updates the shadow state to exactly `(page, pageSize)` for every pagination
configuration — controlled configurations (with explicit `current` /
`pageSize` keys) included — and the effect trace places the two state-setter
calls before the caller-handler invocation, which happens with the same
arguments and exactly when a handler of that name was supplied. -/
theorem c6_pagination_events (eventName : String)
    (pagination : Option PaginationConfig) (st : ListState) (page pageSize : JNum) :
    (triggerPaginationEvent eventName pagination st page pageSize).1
      = { paginationCurrent := page, paginationSize := pageSize } ∧
    (paginationHasHandler pagination eventName = true →
      (triggerPaginationEvent eventName pagination st page pageSize).2
        = [PaginationEffect.setPaginationCurrent page,
           PaginationEffect.setPaginationSize pageSize,
           PaginationEffect.callerHandler eventName page pageSize]) ∧
    (paginationHasHandler pagination eventName = false →
      (triggerPaginationEvent eventName pagination st page pageSize).2
        = [PaginationEffect.setPaginationCurrent page,
           PaginationEffect.setPaginationSize pageSize]) := by
  refine ⟨?_, ?_, ?_⟩
  · unfold triggerPaginationEvent
    by_cases h : paginationHasHandler pagination eventName <;> simp [h]
  · intro h
    simp [triggerPaginationEvent, h]
  · intro h
    simp [triggerPaginationEvent, h]

/-- Witness for C6: an `onChange` event with a caller handler supplied, in a
controlled configuration (`current: 1` present). -/
theorem c6_pagination_events_witness :
    (triggerPaginationEvent "onChange"
        (some { current := some (JNum.int 1), hasOnChange := true })
        { paginationCurrent := JNum.int 1, paginationSize := JNum.int 10 }
        (JNum.int 2) (JNum.int 20)).1
      = { paginationCurrent := JNum.int 2, paginationSize := JNum.int 20 } ∧
    (paginationHasHandler (some { current := some (JNum.int 1), hasOnChange := true })
        "onChange" = true →
      (triggerPaginationEvent "onChange"
          (some { current := some (JNum.int 1), hasOnChange := true })
          { paginationCurrent := JNum.int 1, paginationSize := JNum.int 10 }
          (JNum.int 2) (JNum.int 20)).2
        = [PaginationEffect.setPaginationCurrent (JNum.int 2),
           PaginationEffect.setPaginationSize (JNum.int 20),
           PaginationEffect.callerHandler "onChange" (JNum.int 2) (JNum.int 20)]) ∧
    (paginationHasHandler (some { current := some (JNum.int 1), hasOnChange := true })
        "onChange" = false →
      (triggerPaginationEvent "onChange"
          (some { current := some (JNum.int 1), hasOnChange := true })
          { paginationCurrent := JNum.int 1, paginationSize := JNum.int 10 }
          (JNum.int 2) (JNum.int 20)).2
        = [PaginationEffect.setPaginationCurrent (JNum.int 2),
           PaginationEffect.setPaginationSize (JNum.int 20)]) :=
  c6_pagination_events "onChange"
    (some { current := some (JNum.int 1), hasOnChange := true })
    { paginationCurrent := JNum.int 1, paginationSize := JNum.int 10 }
    (JNum.int 2) (JNum.int 20)

/-- C7 (code bug): with a missing `renderItem` and the non-empty visible
slice `[0]`, the component's item function dutifully returns `null` for the
item (first conjunct — the claim is right that no item node is produced),
but the subsequent child-assembly loop passes that `null` to
`React.cloneElement`, which throws instead of rendering nothing. -/
theorem c7_missing_render_item_throws :
    renderItemOf (α := Nat) none (fun _ _ => none) none 0 0 = (none, none) ∧
    buildChildrenList (α := Nat) none (fun _ _ => none) none [0]
      = Except.error "React.cloneElement(...): The argument must be a React element" :=
  ⟨rfl, rfl⟩

/-- Reading a key off an appended record: the left part wins. -/
theorem jget_append (l₁ l₂ : JObj) (k : String) :
    jget (l₁ ++ l₂) k = jor (jget l₁ k) (jget l₂ k) := by
  induction l₁ with
  | nil => simp [jget, jor]
  | cons p l ih =>
      by_cases h : p.1 = k
      · simp [jget, h, jor]
      · simp [jget, h, ih]

/-- Reading a key off the overridden-copy part of a spread: present exactly
when the base record has the key, with the override value when the overriding
record has it too. -/
theorem jget_spread_map (a b : JObj) (k : String) :
    jget (a.map (fun p => (p.1, (jget b p.1).getD p.2))) k
      = (jget a k).map (fun v => (jget b k).getD v) := by
  induction a with
  | nil => simp [jget]
  | cons p l ih =>
      by_cases h : p.1 = k
      · simp [jget, h]
      · simp [jget, h, ih]

/-- Filtering a record by a predicate that keeps every entry of key `k` does
not change the value read at `k`. -/
theorem jget_filter_keep (b : JObj) (p : String × String → Bool) (k : String)
    (h : ∀ v, p (k, v) = true) :
    jget (b.filter p) k = jget b k := by
  induction b with
  | nil => rfl
  | cons e rest ih =>
      obtain ⟨ek, ev⟩ := e
      by_cases hk : ek = k
      · subst hk
        rw [List.filter_cons, h ev]
        simp [jget]
      · rw [List.filter_cons]
        by_cases hp : p (ek, ev) = true
        · simp only [hp, if_true]
          simp [jget, hk, ih]
        · simp only [hp]
          simp [jget, hk, ih]

/-- The value a spread `{...a, ...b}` holds at any key: the overriding
record's value when it has the key, else the base record's. -/
theorem jget_spreadMerge (a b : JObj) (k : String) :
    jget (spreadMerge a b) k = jor (jget b k) (jget a k) := by
  unfold spreadMerge
  rw [jget_append, jget_spread_map]
  cases ha : jget a k with
  | some v =>
      simp only [Option.map_some']
      cases hb : jget b k <;> simp [jor, Option.getD, hb]
  | none =>
      simp only [Option.map_none']
      rw [jget_filter_keep _ _ _ (fun v => by simp [ha])]
      cases hb : jget b k <;> simp [jor]

/-- C9 (counterexample): the component reads the default validation messages
only from the locally supplied `locale` prop, not from the resolved locale
(`locale || legacyLocale`) the claim describes. With no local `locale`, no
local `form`, and a legacy locale carrying `{required: 'R'}` as default
validation messages, the claimed (spec-resolved) merge is `{required: 'R'}`
with children wrapped, but the code's merge is empty and the children are
passed through unwrapped. -/
theorem c9_counterexample :
    mergedValidateMessages none none = ([] : JObj) ∧
    mergedValidateMessagesSpec none
        (some { Form := some { defaultValidateMessages := some [("required", "R")] } })
        none
      = [("required", "R")] ∧
    renderChildNode none none = ChildNode.plain ∧
    ([] : JObj) ≠ [("required", "R")] := by decide

/-- C9 (amended): the merged validation messages start empty, merge in the
default validation messages of the locally supplied `locale` prop (the
legacy-resolved fallback locale is not consulted here), then merge
locally-supplied `form.validateMessages` on top with local winning
key-by-key; children are wrapped in the form-message-provider scope exactly
when the merged record is non-empty. The claim's example merge holds:
`{required: 'R'}` under `{required: 'L2', email: 'E'}` yields
`{required: 'L2', email: 'E'}`. -/
theorem c9_validate_messages_amended (m₁ m₂ : JObj) (k : String)
    (l : Option Locale) (fm : Option FormConfig) :
    jget (mergedValidateMessages
        (some { Form := some { defaultValidateMessages := some m₁ } })
        (some { validateMessages := some m₂ })) k
      = jor (jget m₂ k) (jget m₁ k) ∧
    mergedValidateMessages
        (some { Form := some { defaultValidateMessages := some m₁ } }) none = m₁ ∧
    mergedValidateMessages none (some { validateMessages := some m₂ }) = m₂ ∧
    (renderChildNode l fm = ChildNode.plain ↔ mergedValidateMessages l fm = []) ∧
    mergedValidateMessages
        (some { Form := some { defaultValidateMessages := some [("required", "R")] } })
        (some { validateMessages := some [("required", "L2"), ("email", "E")] })
      = [("required", "L2"), ("email", "E")] := by
  refine ⟨?_, ?_, ?_, ?_, ?_⟩
  · exact jget_spreadMerge m₁ m₂ k
  · rfl
  · simp [mergedValidateMessages, spreadMerge, jget]
  · unfold renderChildNode
    by_cases h : 0 < (mergedValidateMessages l fm).length
    · rw [if_pos h]
      constructor
      · intro hcontra
        exact absurd hcontra (by simp)
      · intro hempty
        rw [hempty] at h
        simp at h
    · rw [if_neg h]
      have hlen : (mergedValidateMessages l fm).length = 0 := by omega
      simp [List.length_eq_zero.mp hlen]
  · decide

/-- Witness for C9 (amended): the claim's own example records. -/
theorem c9_validate_messages_amended_witness :
    jget (mergedValidateMessages
        (some { Form := some { defaultValidateMessages := some [("required", "R")] } })
        (some { validateMessages := some [("required", "L2"), ("email", "E")] })) "email"
      = jor (jget [("required", "L2"), ("email", "E")] "email")
          (jget [("required", "R")] "email") ∧
    mergedValidateMessages
        (some { Form := some { defaultValidateMessages := some [("required", "R")] } })
        none = [("required", "R")] ∧
    mergedValidateMessages none
        (some { validateMessages := some [("required", "L2"), ("email", "E")] })
      = [("required", "L2"), ("email", "E")] ∧
    (renderChildNode none none = ChildNode.plain ↔
      mergedValidateMessages none none = []) ∧
    mergedValidateMessages
        (some { Form := some { defaultValidateMessages := some [("required", "R")] } })
        (some { validateMessages := some [("required", "L2"), ("email", "E")] })
      = [("required", "L2"), ("email", "E")] :=
  c9_validate_messages_amended [("required", "R")]
    [("required", "L2"), ("email", "E")] "email" none none

/-- C10: a render pass is pure with respect to the pagination shadow state
and the data source — it invokes no state setter and slices only a spread
copy of `dataSource` — while the downward clamp is visible only in the
render-time pagination record: there are inputs where the effective
`current` differs from the stored shadow `current` even though the pass
leaves the stored state untouched. Shadow state changes only through
`triggerPaginationEvent` (claim C6's theorem describes that update). -/
theorem c10_render_frame :
    (∀ (α : Type) (st : ListState) (props : ListProps α),
      (renderPass st props).stateAfter = st ∧
      (renderPass st props).dataSourceAfter = props.dataSource) ∧
    (∃ (st : ListState) (props : ListProps Nat),
      (renderPass st props).paginationProps.current ≠ st.paginationCurrent ∧
      (renderPass st props).stateAfter = st) := by
  constructor
  · intro α st props
    exact ⟨rfl, rfl⟩
  · refine ⟨{ paginationCurrent := JNum.int 5, paginationSize := JNum.int 10 },
      { dataSource := [0], pagination := some {} }, ?_, rfl⟩
    decide

end AntList
